import Mathlib

/-!
Verification of the looping gallery carousel controller implemented in
src/js/main.js (function initGallerySlideshow and its inner helpers).

The controller owns a current index into a rendered display sequence of
three concatenated copies of the image list, a transition flag, a pending
setTimeout callback for transition completion, and a recurring
auto-advance interval timer.  The definitions below are a shallow
embedding of that code: each Lean definition mirrors one JavaScript
function, with the DOM style writes (transform and transition) recorded
as explicit state fields, and the single pending transition-completion
timeout recorded as an Option of its delay in milliseconds.
-/

namespace Alpenglow

/-- The hard-coded gallery image list from initGallerySlideshow
(src/js/main.js lines 204 to 210). -/
def galleryImages : List String :=
  ["assets/images/Gallery/gallery-1.png",
   "assets/images/Gallery/gallery-2.png",
   "assets/images/Gallery/gallery-3.png",
   "assets/images/Gallery/gallery-4.png",
   "assets/images/Gallery/gallery-5.png"]

/-- The rendered display sequence built by initializeTrack: three copies
of the image list, leading copy, original, trailing copy
(src/js/main.js line 221). -/
def imagesToShow (imgs : List String) : List String :=
  imgs ++ imgs ++ imgs

/-- The CSS transition value written for an instant (non-animated)
re-render (src/js/main.js line 239, instant branch). -/
def instantTransition : String := "none"

/-- The CSS transition value written for an animated move
(src/js/main.js line 239, non-instant branch). -/
def animatedTransition : String := "transform 1.2s cubic-bezier(0.4, 0, 0.2, 1)"

/-- The state owned by the carousel controller: the position index
(currentIndex), the transition flag (isTransitioning), the pending
transition-completion timeout recorded as its delay in milliseconds
(none when no completion callback is scheduled), and the last style
values rendered onto the track: translateX holds the percentage written
in the transform, transition holds the transition property string. -/
structure GalleryState where
  currentIndex : Int
  isTransitioning : Bool
  pending : Option Nat
  translateX : Int
  transition : String
  deriving Repr, DecidableEq

/-- Embedding of updateTrackPosition (src/js/main.js lines 233 to 256)
up to, but not including, the firing of the setTimeout callback: the
early return when a transition is in flight and the call is not instant,
the setting of the transition flag, the style writes, and the scheduling
of the completion timeout with delay 0 (instant) or 1200 (animated).
The callback body itself is fireTimeout below. -/
def updateTrackPosition (instant : Bool) (s : GalleryState) : GalleryState :=
  if s.isTransitioning && !instant then s
  else
    { currentIndex := s.currentIndex
      isTransitioning := true
      pending := some (if instant then 0 else 1200)
      translateX := -(s.currentIndex * 100)
      transition := if instant then instantTransition else animatedTransition }

/-- Embedding of the setTimeout callback body inside updateTrackPosition
(src/js/main.js lines 242 to 255): clears the transition flag, then the
wrap check with n the length of the image list: if the index reached the
trailing duplicate set it subtracts n and re-renders instantly, else if
it went before the original set it adds n and re-renders instantly, else
it does nothing further.  The scheduled callback is consumed, so pending
becomes none before any instant re-render schedules a fresh one. -/
def fireTimeout (n : Nat) (s : GalleryState) : GalleryState :=
  let s0 : GalleryState := { s with isTransitioning := false, pending := none }
  if s0.currentIndex ≥ (n : Int) * 2 then
    updateTrackPosition true { s0 with currentIndex := s0.currentIndex - (n : Int) }
  else if s0.currentIndex < (n : Int) then
    updateTrackPosition true { s0 with currentIndex := (n : Int) + s0.currentIndex }
  else s0

/-- Runs the pending transition-completion callback when one is
scheduled; a state with no pending callback is left unchanged. -/
def firePending (n : Nat) (s : GalleryState) : GalleryState :=
  match s.pending with
  | none => s
  | some _ => fireTimeout n s

/-- A full settle: the transition-completion callback runs, and when it
issues an instant correction re-render, the zero-delay callback that the
re-render schedules also runs.  Two firings always reach quiescence for
the single-step moves this controller performs. -/
def settle (n : Nat) (s : GalleryState) : GalleryState :=
  firePending n (firePending n s)

/-- Embedding of nextSlide (src/js/main.js lines 259 to 263): dropped
when a transition is in flight, otherwise increments the index and calls
updateTrackPosition with the animated path. -/
def nextSlide (s : GalleryState) : GalleryState :=
  if s.isTransitioning then s
  else updateTrackPosition false { s with currentIndex := s.currentIndex + 1 }

/-- Embedding of prevSlide (src/js/main.js lines 266 to 270): dropped
when a transition is in flight, otherwise decrements the index and calls
updateTrackPosition with the animated path. -/
def prevSlide (s : GalleryState) : GalleryState :=
  if s.isTransitioning then s
  else updateTrackPosition false { s with currentIndex := s.currentIndex - 1 }

/-- The controller state at declaration time (src/js/main.js lines 212
to 214): currentIndex starts at the image-list length, no transition in
flight, nothing scheduled, no styles written yet. -/
def startState (n : Nat) : GalleryState :=
  { currentIndex := (n : Int)
    isTransitioning := false
    pending := none
    translateX := 0
    transition := "" }

/-- The controller state right after the initial positioning call
updateTrackPosition() at src/js/main.js line 280: the call passes no
argument, so instant defaults to false and the animated path is taken. -/
def initPositioning (n : Nat) : GalleryState :=
  updateTrackPosition false (startState n)

/-- The settled states reachable by the controller: the initial
positioning once its completion callback has run, closed under a
user or timer move followed by a full settle.  Moves attempted while a
transition is in flight are no-ops and add no new states. -/
inductive Reachable (n : Nat) : GalleryState → Prop where
  | init : Reachable n (settle n (initPositioning n))
  | next : ∀ s, Reachable n s → Reachable n (settle n (nextSlide s))
  | prev : ∀ s, Reachable n s → Reachable n (settle n (prevSlide s))

/-- Modelled from the spec: the wrap-correction rule as section 4.1
words it, applied to a position index i with n items: if i has advanced
past the end of the middle copy subtract n, else if it retreated before
the start of the middle copy add n, else leave it unchanged. -/
def specWrapCorrect (n : Nat) (i : Int) : Int :=
  if i ≥ 2 * (n : Int) then i - (n : Int)
  else if i < (n : Int) then i + (n : Int)
  else i

/-- The auto-advance interval period in milliseconds, as passed to
setInterval in restartAutoSlide (src/js/main.js line 275). -/
def autoSlidePeriodMs : Nat := 5000

/-- The timer-visible state: the carousel state together with the
absolute time at which the recurring auto-advance interval will next
fire (none when no interval is active). -/
structure TimedState where
  gallery : GalleryState
  autoDeadline : Option Nat
  deriving Repr, DecidableEq

/-- Embedding of restartAutoSlide (src/js/main.js lines 273 to 276)
called at absolute time t: clearInterval cancels the pending interval
callback, and setInterval schedules the next firing a full period after
t. -/
def restartAutoSlide (t : Nat) (s : TimedState) : TimedState :=
  { s with autoDeadline := some (t + autoSlidePeriodMs) }

/-- The next-button click listener (src/js/main.js lines 284 to 287)
run at absolute time t: nextSlide then restartAutoSlide. -/
def clickNext (t : Nat) (s : TimedState) : TimedState :=
  restartAutoSlide t { s with gallery := nextSlide s.gallery }

/-- The prev-button click listener (src/js/main.js lines 291 to 294)
run at absolute time t: prevSlide then restartAutoSlide. -/
def clickPrev (t : Nat) (s : TimedState) : TimedState :=
  restartAutoSlide t { s with gallery := prevSlide s.gallery }

/-- The auto-advance interval fires at absolute time u exactly when u is
the scheduled deadline of the active interval. -/
def autoFiresAt (s : TimedState) (u : Nat) : Prop :=
  s.autoDeadline = some u

/-- The externally observable effects of one initGallerySlideshow call:
the images appended to the track, whether the auto-advance interval was
started, which click listeners were bound, and the controller state
produced by the initial positioning (none when the function returned
early). -/
structure InitResult where
  renderedImages : List String
  autoStarted : Bool
  nextListenerBound : Bool
  prevListenerBound : Bool
  controller : Option GalleryState
  deriving Repr, DecidableEq

/-- Embedding of initGallerySlideshow (src/js/main.js lines 196 to 299):
when the gallery track element is absent the function returns at line
201 before doing anything; otherwise it renders the three copies of the
image list, performs the initial positioning, binds a listener per
present button, and starts the auto-advance interval. -/
def initGallerySlideshow (trackPresent prevPresent nextPresent : Bool) : InitResult :=
  if !trackPresent then
    { renderedImages := []
      autoStarted := false
      nextListenerBound := false
      prevListenerBound := false
      controller := none }
  else
    { renderedImages := imagesToShow galleryImages
      autoStarted := true
      nextListenerBound := nextPresent
      prevListenerBound := prevPresent
      controller := some (initPositioning galleryImages.length) }

/-! ## Computation lemmas -/

/-- updateTrackPosition on the animated path from a non-transitioning
state: flag set, animated style, 1200 ms completion timeout. -/
lemma updateTrackPosition_false (s : GalleryState) (h : s.isTransitioning = false) :
    updateTrackPosition false s =
      { currentIndex := s.currentIndex
        isTransitioning := true
        pending := some 1200
        translateX := -(s.currentIndex * 100)
        transition := animatedTransition } := by
  simp [updateTrackPosition, h]

/-- updateTrackPosition on the instant path never returns early: flag
set, instant style, zero-delay completion timeout. -/
lemma updateTrackPosition_true (s : GalleryState) :
    updateTrackPosition true s =
      { currentIndex := s.currentIndex
        isTransitioning := true
        pending := some 0
        translateX := -(s.currentIndex * 100)
        transition := instantTransition } := by
  simp [updateTrackPosition]

/-- Closed form of the completion callback body as a three-way case
split on the index. -/
lemma fireTimeout_eq (n : Nat) (s : GalleryState) :
    fireTimeout n s =
      if s.currentIndex ≥ (n : Int) * 2 then
        { currentIndex := s.currentIndex - (n : Int)
          isTransitioning := true
          pending := some 0
          translateX := -((s.currentIndex - (n : Int)) * 100)
          transition := instantTransition }
      else if s.currentIndex < (n : Int) then
        { currentIndex := (n : Int) + s.currentIndex
          isTransitioning := true
          pending := some 0
          translateX := -(((n : Int) + s.currentIndex) * 100)
          transition := instantTransition }
      else
        { s with isTransitioning := false, pending := none } := by
  simp only [fireTimeout, updateTrackPosition_true]

/-- A full settle of a state with a scheduled completion callback and an
index within one step of the middle copy: the settled index is the
wrap-corrected index, the transition flag ends false, and nothing
remains scheduled. -/
lemma settle_fields (n : Nat) (hn : 1 ≤ n) (s : GalleryState) (d : Nat)
    (hp : s.pending = some d)
    (hlo : (n : Int) - 1 ≤ s.currentIndex)
    (hhi : s.currentIndex ≤ 2 * (n : Int)) :
    (settle n s).currentIndex = specWrapCorrect n s.currentIndex ∧
    (settle n s).isTransitioning = false ∧
    (settle n s).pending = none := by
  have hn1 : (1 : Int) ≤ (n : Int) := by exact_mod_cast hn
  unfold settle
  rw [show firePending n s = fireTimeout n s by simp [firePending, hp]]
  rw [fireTimeout_eq n s]
  by_cases h1 : s.currentIndex ≥ (n : Int) * 2
  · have h1' : s.currentIndex = 2 * (n : Int) := by omega
    simp only [if_pos h1, firePending, fireTimeout_eq, specWrapCorrect]
    have c1 : ¬ (s.currentIndex - (n : Int) ≥ (n : Int) * 2) := by omega
    have c2 : ¬ (s.currentIndex - (n : Int) < (n : Int)) := by omega
    simp only [if_neg c1, if_neg c2]
    simp [h1']
  · by_cases h2 : s.currentIndex < (n : Int)
    · simp only [if_neg h1, if_pos h2, firePending, fireTimeout_eq, specWrapCorrect]
      have c1 : ¬ ((n : Int) + s.currentIndex ≥ (n : Int) * 2) := by omega
      have c2 : ¬ ((n : Int) + s.currentIndex < (n : Int)) := by omega
      simp only [if_neg c1, if_neg c2]
      have : ¬ (s.currentIndex ≥ 2 * (n : Int)) := by omega
      simp only [if_neg this, if_pos h2]
      constructor
      · omega
      · simp
    · simp only [if_neg h1, if_neg h2, firePending, specWrapCorrect]
      have : ¬ (s.currentIndex ≥ 2 * (n : Int)) := by omega
      simp [this, h2]

/-- The wrap-corrected index lies in the middle copy whenever the input
index is within one step of it. -/
lemma specWrapCorrect_mem (n : Nat) (hn : 1 ≤ n) (i : Int)
    (hlo : (n : Int) - 1 ≤ i) (hhi : i ≤ 2 * (n : Int)) :
    (n : Int) ≤ specWrapCorrect n i ∧ specWrapCorrect n i < 2 * (n : Int) := by
  have hn1 : (1 : Int) ≤ (n : Int) := by exact_mod_cast hn
  unfold specWrapCorrect
  split_ifs <;> omega

/-- nextSlide from a non-transitioning state: index incremented, flag
armed, animated 1200 ms transition scheduled. -/
lemma nextSlide_false (s : GalleryState) (h : s.isTransitioning = false) :
    nextSlide s =
      { currentIndex := s.currentIndex + 1
        isTransitioning := true
        pending := some 1200
        translateX := -((s.currentIndex + 1) * 100)
        transition := animatedTransition } := by
  rw [nextSlide, if_neg (by simp [h])]
  rw [updateTrackPosition_false _ (by simp [h])]

/-- prevSlide from a non-transitioning state: index decremented, flag
armed, animated 1200 ms transition scheduled. -/
lemma prevSlide_false (s : GalleryState) (h : s.isTransitioning = false) :
    prevSlide s =
      { currentIndex := s.currentIndex - 1
        isTransitioning := true
        pending := some 1200
        translateX := -((s.currentIndex - 1) * 100)
        transition := animatedTransition } := by
  rw [prevSlide, if_neg (by simp [h])]
  rw [updateTrackPosition_false _ (by simp [h])]

/-- Every reachable settled state is quiescent with its index in the
middle copy: flag clear, nothing scheduled, index in the half-open
interval from n to 2n. -/
lemma reachable_good (n : Nat) (hn : 1 ≤ n) (s : GalleryState)
    (hs : Reachable n s) :
    s.isTransitioning = false ∧ s.pending = none ∧
    (n : Int) ≤ s.currentIndex ∧ s.currentIndex < 2 * (n : Int) := by
  have hn1 : (1 : Int) ≤ (n : Int) := by exact_mod_cast hn
  induction hs with
  | init =>
      have hip : initPositioning n =
          { currentIndex := (n : Int)
            isTransitioning := true
            pending := some 1200
            translateX := -((n : Int) * 100)
            transition := animatedTransition } := by
        rw [initPositioning, updateTrackPosition_false _ (by simp [startState])]
        simp [startState]
      have h := settle_fields n hn (initPositioning n) 1200
        (by rw [hip]) (by rw [hip]; dsimp; omega) (by rw [hip]; dsimp; omega)
      have hw : specWrapCorrect n (initPositioning n).currentIndex = (n : Int) := by
        rw [hip]; dsimp
        unfold specWrapCorrect
        split_ifs <;> omega
      have hidx : (settle n (initPositioning n)).currentIndex = (n : Int) := by
        rw [h.1, hw]
      exact ⟨h.2.1, h.2.2, by omega, by omega⟩
  | next s hr ih =>
      obtain ⟨hf, hp, hlo, hhi⟩ := ih
      have hns := nextSlide_false s hf
      have h := settle_fields n hn (nextSlide s) 1200
        (by rw [hns]) (by rw [hns]; dsimp; omega) (by rw [hns]; dsimp; omega)
      have hm := specWrapCorrect_mem n hn (nextSlide s).currentIndex
        (by rw [hns]; dsimp; omega) (by rw [hns]; dsimp; omega)
      exact ⟨h.2.1, h.2.2, by rw [h.1]; exact hm.1, by rw [h.1]; exact hm.2⟩
  | prev s hr ih =>
      obtain ⟨hf, hp, hlo, hhi⟩ := ih
      have hps := prevSlide_false s hf
      have h := settle_fields n hn (prevSlide s) 1200
        (by rw [hps]) (by rw [hps]; dsimp; omega) (by rw [hps]; dsimp; omega)
      have hm := specWrapCorrect_mem n hn (prevSlide s).currentIndex
        (by rw [hps]; dsimp; omega) (by rw [hps]; dsimp; omega)
      exact ⟨h.2.1, h.2.2, by rw [h.1]; exact hm.1, by rw [h.1]; exact hm.2⟩

/-- The completion callback body always leaves the wrap-corrected
index, whichever branch it takes. -/
lemma fireTimeout_currentIndex (n : Nat) (s : GalleryState) :
    (fireTimeout n s).currentIndex = specWrapCorrect n s.currentIndex := by
  rw [fireTimeout_eq]
  unfold specWrapCorrect
  split_ifs <;> dsimp <;> omega

/-- Firing a scheduled completion callback yields the wrap-corrected
index already after the first firing. -/
lemma firePending_currentIndex (n : Nat) (s : GalleryState) (d : Nat)
    (hp : s.pending = some d) :
    (firePending n s).currentIndex = specWrapCorrect n s.currentIndex := by
  rw [show firePending n s = fireTimeout n s by simp [firePending, hp]]
  exact fireTimeout_currentIndex n s

/-! ## The claims -/

/-- C1: for every item count n with n ≥ 1 and every reachable settled
state of the carousel controller (a state after a completed
move-and-correction cycle), the position index lies in the half-open
interval from n to 2n; a move started from such a state can only push
the index transiently up to 2n (forward) or down to n - 1 (backward). -/
theorem c1_settled_index_in_middle_copy (n : Nat) (hn : 1 ≤ n)
    (s : GalleryState) (hs : Reachable n s) :
    ((n : Int) ≤ s.currentIndex ∧ s.currentIndex < 2 * (n : Int)) ∧
    (nextSlide s).currentIndex ≤ 2 * (n : Int) ∧
    (n : Int) - 1 ≤ (prevSlide s).currentIndex := by
  obtain ⟨hf, hp, hlo, hhi⟩ := reachable_good n hn s hs
  rw [nextSlide_false s hf, prevSlide_false s hf]
  dsimp
  exact ⟨⟨hlo, hhi⟩, by omega, by omega⟩

/-- Witness for C1 at n = 5 and the settled initial state. -/
theorem c1_witness :
    1 ≤ 5 ∧
    ((((5 : Nat) : Int) ≤ (settle 5 (initPositioning 5)).currentIndex ∧
        (settle 5 (initPositioning 5)).currentIndex < 2 * ((5 : Nat) : Int)) ∧
      (nextSlide (settle 5 (initPositioning 5))).currentIndex ≤ 2 * ((5 : Nat) : Int) ∧
      ((5 : Nat) : Int) - 1 ≤ (prevSlide (settle 5 (initPositioning 5))).currentIndex) :=
  ⟨by decide, c1_settled_index_in_middle_copy 5 (by decide) _ Reachable.init⟩

/-- C2: the completion callback wrap check computes exactly the rule
given by specWrapCorrect (subtract n at or past 2n, else add n below n,
else no change), and in the concrete scenario with five items, starting
at the settled initial index 5, one backward advance followed by a
settle yields the corrected index 9, the last original item, not 4; the
correction is rendered with the instant transition at the corrected
offset. -/
theorem c2_wrap_check_rule :
    (∀ (n : Nat) (s : GalleryState),
        (fireTimeout n s).currentIndex = specWrapCorrect n s.currentIndex) ∧
    (settle 5 (prevSlide (settle 5 (initPositioning 5)))).currentIndex = 9 ∧
    (settle 5 (prevSlide (settle 5 (initPositioning 5)))).currentIndex ≠ 4 ∧
    (firePending 5 (prevSlide (settle 5 (initPositioning 5)))).transition
      = instantTransition ∧
    (firePending 5 (prevSlide (settle 5 (initPositioning 5)))).translateX = -900 :=
  ⟨fireTimeout_currentIndex, by decide, by decide, by decide, by decide⟩

/-- C3: while the transition flag is true, nextSlide and prevSlide both
return the state unchanged: the index is untouched, the pending
completion callback is untouched, and nothing new is scheduled. -/
theorem c3_advance_noop_in_flight (s : GalleryState)
    (h : s.isTransitioning = true) :
    nextSlide s = s ∧ prevSlide s = s := by
  constructor <;> simp [nextSlide, prevSlide, h]

/-- Witness for C3 at the in-flight state produced by the initial
positioning with five items. -/
theorem c3_witness :
    (initPositioning 5).isTransitioning = true ∧
    (nextSlide (initPositioning 5) = initPositioning 5 ∧
      prevSlide (initPositioning 5) = initPositioning 5) :=
  ⟨by decide, c3_advance_noop_in_flight (initPositioning 5) (by decide)⟩

/-- C4 counterexample: the initial positioning call at line 280 passes
no argument, so instant defaults to false: it writes the animated 1.2
second transition style, not the instant one, and arms the transition
flag with a 1200 ms completion timeout.  The claimed immediate,
non-animated positioning at initialization therefore does not match the
code. -/
theorem c4_counterexample :
    (initPositioning galleryImages.length).transition = animatedTransition ∧
    (initPositioning galleryImages.length).transition ≠ instantTransition ∧
    (initPositioning galleryImages.length).pending = some 1200 ∧
    (initPositioning galleryImages.length).isTransitioning = true :=
  ⟨by decide, by decide, by decide, by decide⟩

/-- C4 amended: for every n ≥ 1, initialization sets the position index
to n and performs one positioning to that index through the animated
path (transition flag armed, animated transition style, 1200 ms
completion timeout); the rendered offset corresponds exactly to item n
of the display sequence, namely translateX = -(n * 100). -/
theorem c4_init_positioning (n : Nat) :
    (initPositioning n).currentIndex = (n : Int) ∧
    (initPositioning n).translateX = -((n : Int) * 100) ∧
    (initPositioning n).isTransitioning = true ∧
    (initPositioning n).pending = some 1200 ∧
    (initPositioning n).transition = animatedTransition := by
  rw [initPositioning, updateTrackPosition_false _ (by simp [startState])]
  simp [startState]

/-- C5: from any quiescent state with the index in the middle copy, a
single-step move followed by one firing of its completion callback
leaves the index already back in the middle copy, so the instant
correction re-render never needs a second adjustment: the zero-delay
callback it schedules leaves the index unchanged, and the full settle
ends with the transition flag false and nothing scheduled. -/
theorem c5_single_correction (n : Nat) (hn : 1 ≤ n) (s : GalleryState)
    (hf : s.isTransitioning = false) (hp : s.pending = none)
    (hlo : (n : Int) ≤ s.currentIndex) (hhi : s.currentIndex < 2 * (n : Int)) :
    ((n : Int) ≤ (firePending n (nextSlide s)).currentIndex ∧
      (firePending n (nextSlide s)).currentIndex < 2 * (n : Int) ∧
      (firePending n (firePending n (nextSlide s))).currentIndex =
        (firePending n (nextSlide s)).currentIndex ∧
      (settle n (nextSlide s)).isTransitioning = false ∧
      (settle n (nextSlide s)).pending = none) ∧
    ((n : Int) ≤ (firePending n (prevSlide s)).currentIndex ∧
      (firePending n (prevSlide s)).currentIndex < 2 * (n : Int) ∧
      (firePending n (firePending n (prevSlide s))).currentIndex =
        (firePending n (prevSlide s)).currentIndex ∧
      (settle n (prevSlide s)).isTransitioning = false ∧
      (settle n (prevSlide s)).pending = none) := by
  have hn1 : (1 : Int) ≤ (n : Int) := by exact_mod_cast hn
  constructor
  · have hni : (nextSlide s).currentIndex = s.currentIndex + 1 := by
      rw [nextSlide_false s hf]
    have hnp : (nextSlide s).pending = some 1200 := by
      rw [nextSlide_false s hf]
    have h1 := firePending_currentIndex n (nextSlide s) 1200 hnp
    obtain ⟨e, f, p⟩ := settle_fields n hn (nextSlide s) 1200 hnp
      (by omega) (by omega)
    have hm := specWrapCorrect_mem n hn (nextSlide s).currentIndex
      (by omega) (by omega)
    have e2 : (firePending n (firePending n (nextSlide s))).currentIndex =
        (firePending n (nextSlide s)).currentIndex := by
      have : settle n (nextSlide s) =
          firePending n (firePending n (nextSlide s)) := rfl
      rw [← this, e, h1]
    exact ⟨by omega, by omega, e2, f, p⟩
  · have hpi : (prevSlide s).currentIndex = s.currentIndex - 1 := by
      rw [prevSlide_false s hf]
    have hpp : (prevSlide s).pending = some 1200 := by
      rw [prevSlide_false s hf]
    have h1 := firePending_currentIndex n (prevSlide s) 1200 hpp
    obtain ⟨e, f, p⟩ := settle_fields n hn (prevSlide s) 1200 hpp
      (by omega) (by omega)
    have hm := specWrapCorrect_mem n hn (prevSlide s).currentIndex
      (by omega) (by omega)
    have e2 : (firePending n (firePending n (prevSlide s))).currentIndex =
        (firePending n (prevSlide s)).currentIndex := by
      have : settle n (prevSlide s) =
          firePending n (firePending n (prevSlide s)) := rfl
      rw [← this, e, h1]
    exact ⟨by omega, by omega, e2, f, p⟩

/-- Witness for C5 at n = 5 and the settled initial state. -/
theorem c5_witness :
    (1 ≤ 5 ∧ (settle 5 (initPositioning 5)).isTransitioning = false ∧
      (settle 5 (initPositioning 5)).pending = none ∧
      ((5 : Nat) : Int) ≤ (settle 5 (initPositioning 5)).currentIndex ∧
      (settle 5 (initPositioning 5)).currentIndex < 2 * ((5 : Nat) : Int)) ∧
    ((((5 : Nat) : Int) ≤
        (firePending 5 (nextSlide (settle 5 (initPositioning 5)))).currentIndex ∧
      (firePending 5 (nextSlide (settle 5 (initPositioning 5)))).currentIndex
        < 2 * ((5 : Nat) : Int) ∧
      (firePending 5 (firePending 5
          (nextSlide (settle 5 (initPositioning 5))))).currentIndex =
        (firePending 5 (nextSlide (settle 5 (initPositioning 5)))).currentIndex ∧
      (settle 5 (nextSlide (settle 5 (initPositioning 5)))).isTransitioning = false ∧
      (settle 5 (nextSlide (settle 5 (initPositioning 5)))).pending = none) ∧
    (((5 : Nat) : Int) ≤
        (firePending 5 (prevSlide (settle 5 (initPositioning 5)))).currentIndex ∧
      (firePending 5 (prevSlide (settle 5 (initPositioning 5)))).currentIndex
        < 2 * ((5 : Nat) : Int) ∧
      (firePending 5 (firePending 5
          (prevSlide (settle 5 (initPositioning 5))))).currentIndex =
        (firePending 5 (prevSlide (settle 5 (initPositioning 5)))).currentIndex ∧
      (settle 5 (prevSlide (settle 5 (initPositioning 5)))).isTransitioning = false ∧
      (settle 5 (prevSlide (settle 5 (initPositioning 5)))).pending = none)) :=
  ⟨⟨by decide, by decide, by decide, by decide, by decide⟩,
    c5_single_correction 5 (by decide) (settle 5 (initPositioning 5))
      (by decide) (by decide) (by decide) (by decide)⟩

/-- C6: from any quiescent state with the index in the middle copy, a
forward advance settled to completion followed by a backward advance
settled to completion restores the original index, and symmetrically
backward then forward. -/
theorem c6_round_trip (n : Nat) (hn : 1 ≤ n) (s : GalleryState)
    (hf : s.isTransitioning = false) (hp : s.pending = none)
    (hlo : (n : Int) ≤ s.currentIndex) (hhi : s.currentIndex < 2 * (n : Int)) :
    (settle n (prevSlide (settle n (nextSlide s)))).currentIndex =
      s.currentIndex ∧
    (settle n (nextSlide (settle n (prevSlide s)))).currentIndex =
      s.currentIndex := by
  have hn1 : (1 : Int) ≤ (n : Int) := by exact_mod_cast hn
  constructor
  · have hni : (nextSlide s).currentIndex = s.currentIndex + 1 := by
      rw [nextSlide_false s hf]
    have hnp : (nextSlide s).pending = some 1200 := by
      rw [nextSlide_false s hf]
    obtain ⟨e1, f1, p1⟩ := settle_fields n hn (nextSlide s) 1200 hnp
      (by omega) (by omega)
    have hm1 := specWrapCorrect_mem n hn (nextSlide s).currentIndex
      (by omega) (by omega)
    have hpi : (prevSlide (settle n (nextSlide s))).currentIndex =
        (settle n (nextSlide s)).currentIndex - 1 := by
      rw [prevSlide_false _ f1]
    have hpp : (prevSlide (settle n (nextSlide s))).pending = some 1200 := by
      rw [prevSlide_false _ f1]
    obtain ⟨e2, f2, p2⟩ := settle_fields n hn _ 1200 hpp
      (by omega) (by omega)
    rw [e2, hpi, e1, hni]
    unfold specWrapCorrect
    split_ifs <;> omega
  · have hpi : (prevSlide s).currentIndex = s.currentIndex - 1 := by
      rw [prevSlide_false s hf]
    have hpp : (prevSlide s).pending = some 1200 := by
      rw [prevSlide_false s hf]
    obtain ⟨e1, f1, p1⟩ := settle_fields n hn (prevSlide s) 1200 hpp
      (by omega) (by omega)
    have hm1 := specWrapCorrect_mem n hn (prevSlide s).currentIndex
      (by omega) (by omega)
    have hni : (nextSlide (settle n (prevSlide s))).currentIndex =
        (settle n (prevSlide s)).currentIndex + 1 := by
      rw [nextSlide_false _ f1]
    have hnp : (nextSlide (settle n (prevSlide s))).pending = some 1200 := by
      rw [nextSlide_false _ f1]
    obtain ⟨e2, f2, p2⟩ := settle_fields n hn _ 1200 hnp
      (by omega) (by omega)
    rw [e2, hni, e1, hpi]
    unfold specWrapCorrect
    split_ifs <;> omega

/-- Witness for C6 at n = 5 and the settled initial state. -/
theorem c6_witness :
    (1 ≤ 5 ∧ (settle 5 (initPositioning 5)).isTransitioning = false ∧
      (settle 5 (initPositioning 5)).pending = none ∧
      ((5 : Nat) : Int) ≤ (settle 5 (initPositioning 5)).currentIndex ∧
      (settle 5 (initPositioning 5)).currentIndex < 2 * ((5 : Nat) : Int)) ∧
    ((settle 5 (prevSlide (settle 5 (nextSlide
        (settle 5 (initPositioning 5)))))).currentIndex =
      (settle 5 (initPositioning 5)).currentIndex ∧
     (settle 5 (nextSlide (settle 5 (prevSlide
        (settle 5 (initPositioning 5)))))).currentIndex =
      (settle 5 (initPositioning 5)).currentIndex) :=
  ⟨⟨by decide, by decide, by decide, by decide, by decide⟩,
    c6_round_trip 5 (by decide) (settle 5 (initPositioning 5))
      (by decide) (by decide) (by decide) (by decide)⟩

/-- C7: the wrap-correction rule is idempotent on indices already in
the middle copy: the completion callback leaves such an index
unchanged, re-renders nothing (the last written offset is untouched and
no instant callback is scheduled), and the spec-level correction rule
fixes the index as well. -/
theorem c7_wrap_idempotent_in_range (n : Nat) (s : GalleryState)
    (hlo : (n : Int) ≤ s.currentIndex) (hhi : s.currentIndex < 2 * (n : Int)) :
    (fireTimeout n s).currentIndex = s.currentIndex ∧
    (fireTimeout n s).pending = none ∧
    (fireTimeout n s).translateX = s.translateX ∧
    (fireTimeout n s).transition = s.transition ∧
    specWrapCorrect n s.currentIndex = s.currentIndex := by
  rw [fireTimeout_eq]
  have h1 : ¬ (s.currentIndex ≥ (n : Int) * 2) := by omega
  have h2 : ¬ (s.currentIndex < (n : Int)) := by omega
  rw [if_neg h1, if_neg h2]
  refine ⟨rfl, rfl, rfl, rfl, ?_⟩
  unfold specWrapCorrect
  rw [if_neg (by omega), if_neg h2]

/-- Witness for C7 at n = 5 and the settled initial state, whose index
is 5. -/
theorem c7_witness :
    (((5 : Nat) : Int) ≤ (settle 5 (initPositioning 5)).currentIndex ∧
      (settle 5 (initPositioning 5)).currentIndex < 2 * ((5 : Nat) : Int)) ∧
    ((fireTimeout 5 (settle 5 (initPositioning 5))).currentIndex =
        (settle 5 (initPositioning 5)).currentIndex ∧
      (fireTimeout 5 (settle 5 (initPositioning 5))).pending = none ∧
      (fireTimeout 5 (settle 5 (initPositioning 5))).translateX =
        (settle 5 (initPositioning 5)).translateX ∧
      (fireTimeout 5 (settle 5 (initPositioning 5))).transition =
        (settle 5 (initPositioning 5)).transition ∧
      specWrapCorrect 5 (settle 5 (initPositioning 5)).currentIndex =
        (settle 5 (initPositioning 5)).currentIndex) :=
  ⟨⟨by decide, by decide⟩,
    c7_wrap_idempotent_in_range 5 (settle 5 (initPositioning 5))
      (by decide) (by decide)⟩

/-- C8: restarting the auto-advance schedules the next firing exactly
one period after the call, and the period constant passed to
setInterval is 5000 ms, five seconds, not the four seconds named in the
stale source comment. -/
theorem c8_auto_advance_period (t : Nat) (s : TimedState) :
    (restartAutoSlide t s).autoDeadline = some (t + autoSlidePeriodMs) ∧
    autoSlidePeriodMs = 5000 ∧ autoSlidePeriodMs ≠ 4000 :=
  ⟨rfl, rfl, by decide⟩

/-- C9: a manual advance through either control button at time t
reschedules the auto-advance to fire exactly one full period after t,
whatever was pending before, so no auto-advance fires at any time
earlier than t plus one period after the click. -/
theorem c9_click_resets_auto_timer (t u : Nat) (s : TimedState)
    (h : u < t + autoSlidePeriodMs) :
    (clickNext t s).autoDeadline = some (t + autoSlidePeriodMs) ∧
    (clickPrev t s).autoDeadline = some (t + autoSlidePeriodMs) ∧
    ¬ autoFiresAt (clickNext t s) u ∧
    ¬ autoFiresAt (clickPrev t s) u := by
  refine ⟨rfl, rfl, fun hc => ?_, fun hc => ?_⟩ <;>
    (simp only [autoFiresAt, clickNext, clickPrev, restartAutoSlide,
        Option.some.injEq] at hc; omega)

/-- Witness for C9 at t = 0, u = 4999 and a concrete timed state with a
pending auto-advance. -/
theorem c9_witness :
    4999 < 0 + autoSlidePeriodMs ∧
    ((clickNext 0 ⟨initPositioning 5, some 17⟩).autoDeadline =
        some (0 + autoSlidePeriodMs) ∧
      (clickPrev 0 ⟨initPositioning 5, some 17⟩).autoDeadline =
        some (0 + autoSlidePeriodMs) ∧
      ¬ autoFiresAt (clickNext 0 ⟨initPositioning 5, some 17⟩) 4999 ∧
      ¬ autoFiresAt (clickPrev 0 ⟨initPositioning 5, some 17⟩) 4999) :=
  ⟨by decide, c9_click_resets_auto_timer 0 4999 ⟨initPositioning 5, some 17⟩
    (by decide)⟩

/-- C10: when the gallery track element is absent, initGallerySlideshow
returns before doing anything, whichever buttons are present: no images
are rendered, the auto-advance interval is not started, no click
listeners are bound, and no controller state is created; the embedded
function is total, so no error is raised. -/
theorem c10_absent_track_noop (prevPresent nextPresent : Bool) :
    initGallerySlideshow false prevPresent nextPresent =
      { renderedImages := []
        autoStarted := false
        nextListenerBound := false
        prevListenerBound := false
        controller := none } := rfl

end Alpenglow
